import Mathlib

/-!
# Verification of the levee-go streaming chat bridge

A shallow embedding of the streaming-chat core of the `levee-go` SDK
(`llm.go` and the WebSocket relay in `ws.go` / `client_compat.go`), together
with theorems settling the spec's claims about it.

Modelling conventions:
* protobuf `int32`/`int64` fields become `Int`; `float32`/`float64` fields
  (temperature, cost) become `Rat` — they are only ever copied, never
  computed with, so any type with decidable equality is faithful;
* the gRPC stream is modelled by an explicit log of transmitted client
  messages (`sentMsgs`, plus a counter of `CloseSend` calls) and a queue of
  inbound items (`inbound`); `Recv` returning `io.EOF` corresponds to the
  queue being exhausted, and a transport-level receive error is an explicit
  queue item;
* Go `error` values are the strings `fmt.Errorf` builds;
* the chunk callback is `Option (StreamChunk → Except String Unit)`
  (`nil` callback = `none`; a Go callback returning a non-nil error =
  `Except.error`);
* external collaborators (the HTTP config lookup, `url.Parse`,
  `grpc.NewClient`, opening the bidirectional stream) are parameters of the
  operations that call them, bundled in small environment structures.
-/

namespace Levee

/-- `levee.ChatMessage`: a message in a conversation. -/
structure ChatMessage where
  role : String
  content : String
  deriving DecidableEq, Repr

/-- `llmpb.Message`: the wire form of a chat message. -/
structure WireMessage where
  role : String
  content : String
  deriving DecidableEq, Repr

/-- `levee.ChatRequest`: an LLM chat request. -/
structure ChatRequest where
  messages : List ChatMessage
  systemPrompt : String
  model : String
  maxTokens : Int
  temperature : Rat
  deriving DecidableEq, Repr

/-- `levee.ChatResponse`: an LLM chat response. -/
structure ChatResponse where
  content : String
  model : String
  inputTokens : Int
  outputTokens : Int
  costUSD : Rat
  latencyMs : Int
  stopReason : String
  deriving DecidableEq, Repr

/-- `llmpb.StartChatRequest`: the start envelope of a streaming session. -/
structure StartChatRequest where
  apiKey : String
  systemPrompt : String
  model : String
  maxTokens : Int
  temperature : Rat
  messages : List WireMessage
  deriving DecidableEq, Repr

/-- `llmpb.UserMessage`: one user turn. -/
structure UserMessage where
  content : String
  deriving DecidableEq, Repr

/-- `llmpb.AbortRequest`: a client-initiated abort. -/
structure AbortRequest where
  reason : String
  deriving DecidableEq, Repr

/-- `llmpb.ToolResult`: a tool call result sent back to the backend. -/
structure ToolResult where
  toolCallId : String
  result : String
  isError : Bool
  deriving DecidableEq, Repr

/-- `llmpb.ChatRequest`: the tagged union of client-to-backend messages. -/
inductive ChatRequestMsg where
  | start (s : StartChatRequest)
  | message (m : UserMessage)
  | abort (a : AbortRequest)
  | toolResult (t : ToolResult)
  deriving DecidableEq, Repr

/-- `llmpb.SessionStarted`: backend acknowledgement of the start envelope. -/
structure SessionStartedResponse where
  sessionId : String
  provider : String
  model : String
  deriving DecidableEq, Repr

/-- `llmpb.ChunkResponse`: one streamed content fragment. -/
structure ChunkResponse where
  content : String
  index : Int
  deriving DecidableEq, Repr

/-- `llmpb.ToolCallResponse`: the backend requests a tool invocation. -/
structure ToolCallResponse where
  toolCallId : String
  name : String
  argumentsJson : String
  deriving DecidableEq, Repr

/-- `llmpb.CompletionResponse`: the turn-completion event. -/
structure CompletionResponse where
  fullContent : String
  stopReason : String
  inputTokens : Int
  outputTokens : Int
  costUsd : Rat
  latencyMs : Int
  deriving DecidableEq, Repr

/-- `llmpb.ErrorResponse`: a backend-reported error event. -/
structure ErrorResponse where
  code : String
  message : String
  retryable : Bool
  deriving DecidableEq, Repr

/-- `llmpb.AbortedResponse`: the backend confirms generation was aborted. -/
structure AbortedResponse where
  reason : String
  deriving DecidableEq, Repr

/-- `llmpb.ChatResponse`: the tagged union of backend-to-client events. -/
inductive ChatResponseEvent where
  | sessionStarted (s : SessionStartedResponse)
  | chunk (c : ChunkResponse)
  | toolCall (t : ToolCallResponse)
  | completion (c : CompletionResponse)
  | error (e : ErrorResponse)
  | aborted (a : AbortedResponse)
  deriving DecidableEq, Repr

/-- One outcome of `stream.Recv()` short of `io.EOF`: either a backend event
or a transport-level receive error. `io.EOF` is modelled by the inbound
queue being exhausted. -/
inductive StreamItem where
  | event (e : ChatResponseEvent)
  | recvErr (msg : String)
  deriving DecidableEq, Repr

/-- `levee.StreamChunk`: the value handed to the streaming callback. -/
structure StreamChunk where
  content : String
  index : Int
  deriving DecidableEq, Repr

/-- `levee.StreamCallback`: called for each chunk during streaming; a
`Except.error` result corresponds to the Go callback returning an error. -/
def StreamCallback := StreamChunk → Except String Unit

/-- `levee.ChatSession`: an active bidirectional streaming session.
`done` is the `done` flag set by `Close`; `sentMsgs` logs every message
transmitted on the stream's send side (the session's transport writes);
`closeSendCalls` counts `stream.CloseSend()` invocations; `inbound` is the
queue of items the stream's receive side will yield before `io.EOF`. -/
structure ChatSession where
  apiKey : String
  done : Bool
  sentMsgs : List ChatRequestMsg
  closeSendCalls : Nat
  inbound : List StreamItem
  deriving Repr

/-- The value `Send` returns once its receive loop has ended
(`llm.go` lines 686–697): completion fields verbatim when a completion was
recorded, otherwise just the accumulated content with every other field
zero-valued. -/
def sendFinish (fullContent : String) (completion : Option CompletionResponse) :
    Except String ChatResponse :=
  match completion with
  | none =>
      Except.ok { content := fullContent, model := "", inputTokens := 0,
                  outputTokens := 0, costUSD := 0, latencyMs := 0, stopReason := "" }
  | some c =>
      Except.ok { content := c.fullContent, model := "", inputTokens := c.inputTokens,
                  outputTokens := c.outputTokens, costUSD := c.costUsd,
                  latencyMs := c.latencyMs, stopReason := c.stopReason }

/-- The receive loop of `ChatSession.Send` (`llm.go` lines 653–684).
Returns the call's result, the chunks delivered to the callback in order,
and the inbound items the loop did not consume. The `completion` parameter
mirrors the Go local of the same name; the `if completion != nil then break`
check at the end of each iteration is the `isSome` test after each
non-terminal case. A type-switch case absent from the Go source
(`toolCall`) falls through the switch and is ignored, exactly as in Go. -/
def sendLoop (cb : Option StreamCallback) :
    List StreamItem → String → Option CompletionResponse → List StreamChunk →
    Except String ChatResponse × List StreamChunk × List StreamItem
  | [], fullContent, completion, calls =>
      (sendFinish fullContent completion, calls, [])
  | StreamItem.recvErr m :: rest, _, _, calls =>
      (Except.error ("stream receive error: " ++ m), calls, rest)
  | StreamItem.event e :: rest, fullContent, completion, calls =>
      match e with
      | ChatResponseEvent.sessionStarted _ =>
          if completion.isSome then (sendFinish fullContent completion, calls, rest)
          else sendLoop cb rest fullContent completion calls
      | ChatResponseEvent.chunk c =>
          let fullContent := fullContent ++ c.content
          match cb with
          | none =>
              if completion.isSome then (sendFinish fullContent completion, calls, rest)
              else sendLoop cb rest fullContent completion calls
          | some f =>
              let chunk : StreamChunk := { content := c.content, index := c.index }
              match f chunk with
              | Except.error err => (Except.error err, calls ++ [chunk], rest)
              | Except.ok _ =>
                  if completion.isSome then
                    (sendFinish fullContent completion, calls ++ [chunk], rest)
                  else sendLoop cb rest fullContent completion (calls ++ [chunk])
      | ChatResponseEvent.toolCall _ =>
          if completion.isSome then (sendFinish fullContent completion, calls, rest)
          else sendLoop cb rest fullContent completion calls
      | ChatResponseEvent.completion c =>
          (sendFinish fullContent (some c), calls, rest)
      | ChatResponseEvent.error e =>
          (Except.error ("LLM error: " ++ e.message), calls, rest)
      | ChatResponseEvent.aborted a =>
          (Except.error ("generation aborted: " ++ a.reason), calls, rest)

/-- The observable outcome of one `ChatSession.Send` call: the returned
value, the chunks delivered to the callback, and the session afterwards. -/
structure SendOutcome where
  result : Except String ChatResponse
  callbackCalls : List StreamChunk
  session : ChatSession
  deriving Repr

/-- `ChatSession.Send` (`llm.go` lines 629–698): fail fast when closed,
otherwise transmit the user turn and run the receive loop. -/
def ChatSession.send (s : ChatSession) (content : String)
    (cb : Option StreamCallback) : SendOutcome :=
  if s.done then
    { result := Except.error "session is closed", callbackCalls := [], session := s }
  else
    let s1 : ChatSession :=
      { s with sentMsgs := s.sentMsgs ++ [ChatRequestMsg.message { content := content }] }
    let out := sendLoop cb s1.inbound "" none []
    { result := out.1, callbackCalls := out.2.1,
      session := { s1 with inbound := out.2.2 } }

/-- `ChatSession.Abort` (`llm.go` lines 701–712): transmits an abort-turn
message on the stream. Note the source performs no `done` check. -/
def ChatSession.abortTurn (s : ChatSession) (reason : String) :
    Except String Unit × ChatSession :=
  (Except.ok (),
   { s with sentMsgs := s.sentMsgs ++ [ChatRequestMsg.abort { reason := reason }] })

/-- `ChatSession.Close` (`llm.go` lines 715–721): sets `done` and calls
`stream.CloseSend()`. -/
def ChatSession.close (s : ChatSession) : ChatSession :=
  { s with done := true, closeSendCalls := s.closeSendCalls + 1 }

/-- The JSON body of `/sdk/v1/llm/config` (`llmConfigResponse`). -/
structure LLMConfigResponse where
  available : Bool
  grpcPort : Int
  defaultProvider : String
  configuredProviders : List String
  deriving DecidableEq, Repr

/-- `levee.LLMClient`: the transport connector. `conn` is the cached gRPC
connection handle (a `Nat` identifier stands for `*grpc.ClientConn`). -/
structure LLMClient where
  apiKey : String
  baseURL : String
  grpcAddr : String
  useTLS : Bool
  conn : Option Nat
  deriving DecidableEq, Repr

/-- The external collaborators `LLMClient.connect` consults: the outcome of
the side-channel HTTP config lookup (`fetchConfig`), the hostname
`url.Parse(baseURL).Hostname()` yields (or a parse error), and the outcome
of `grpc.NewClient` (a fresh connection handle or an error). -/
structure ConnectEnv where
  fetchConfig : Except String LLMConfigResponse
  hostname : Except String String
  newConn : Except String Nat
  deriving Repr

/-- The observable outcome of one `connect` call: the returned value, the
client afterwards, how many side-channel config lookups were performed and
how many gRPC connections were created during the call. -/
structure ConnectOutcome where
  result : Except String Unit
  client : LLMClient
  lookupsPerformed : Nat
  connsCreated : Nat
  deriving Repr

/-- The address-resolution step of `connect` (`llm.go` lines 450–470): use
the configured address when present, else auto-discover via the config
endpoint, check availability, compose `hostname:port` and cache it on the
client. Returns the address to dial and the (possibly updated) client. -/
def LLMClient.resolveAddr (c : LLMClient) (env : ConnectEnv) :
    Except String (String × LLMClient) :=
  if c.grpcAddr = "" then
    match env.fetchConfig with
    | Except.error e =>
        Except.error ("failed to auto-discover gRPC address: " ++ e)
    | Except.ok config =>
        if !config.available then
          Except.error "LLM service is not available for this organization"
        else
          match env.hostname with
          | Except.error e => Except.error ("failed to parse baseURL: " ++ e)
          | Except.ok host =>
              let addr := host ++ ":" ++ toString config.grpcPort
              Except.ok (addr, { c with grpcAddr := addr })
  else
    Except.ok (c.grpcAddr, c)

/-- `LLMClient.connect` (`llm.go` lines 441–488): return immediately when a
connection is cached; otherwise resolve the address (performing one
side-channel lookup exactly when no explicit address is configured), then
create the gRPC connection and cache it. -/
def LLMClient.connect (c : LLMClient) (env : ConnectEnv) : ConnectOutcome :=
  match c.conn with
  | some _ => { result := Except.ok (), client := c, lookupsPerformed := 0, connsCreated := 0 }
  | none =>
    let lookups : Nat := if c.grpcAddr = "" then 1 else 0
    match c.resolveAddr env with
    | Except.error e =>
        { result := Except.error e, client := c, lookupsPerformed := lookups,
          connsCreated := 0 }
    | Except.ok (addr, c1) =>
        match env.newConn with
        | Except.error e =>
            { result := Except.error ("failed to connect to LLM server at " ++ addr ++ ": " ++ e),
              client := c1, lookupsPerformed := lookups, connsCreated := 0 }
        | Except.ok handle =>
            { result := Except.ok (), client := { c1 with conn := some handle },
              lookupsPerformed := lookups, connsCreated := 1 }

/-- One step of a sequence of `connect` calls: thread the client and total
the connections created. -/
def connectStep (p : LLMClient × Nat) (env : ConnectEnv) : LLMClient × Nat :=
  let o := p.1.connect env
  (o.client, p.2 + o.connsCreated)

/-- Run a sequence of `connect` calls, totalling the connections created. -/
def connectMany (c : LLMClient) (envs : List ConnectEnv) : LLMClient × Nat :=
  envs.foldl connectStep (c, 0)

/-- The collaborators `NewChatSession` needs beyond `connect`: the outcome
of opening the bidirectional stream (`c.client.Chat(ctx)`). -/
structure SessionEnv where
  connectEnv : ConnectEnv
  openStream : Except String Unit
  deriving Repr

/-- `LLMClient.NewChatSession` (`llm.go` lines 586–626): connect, open the
stream, convert the request's messages to wire form and transmit the start
envelope. The fresh session's `sentMsgs` log holds exactly that envelope;
`inbound` is the queue of items the stream will later yield. -/
def LLMClient.newChatSession (c : LLMClient) (env : SessionEnv) (req : ChatRequest)
    (inbound : List StreamItem) : Except String ChatSession :=
  match (c.connect env.connectEnv).result with
  | Except.error e => Except.error e
  | Except.ok _ =>
    match env.openStream with
    | Except.error e => Except.error ("failed to start chat session: " ++ e)
    | Except.ok _ =>
        let messages := req.messages.map
          (fun m => ({ role := m.role, content := m.content } : WireMessage))
        Except.ok
          { apiKey := c.apiKey, done := false,
            sentMsgs := [ChatRequestMsg.start
              { apiKey := c.apiKey, systemPrompt := req.systemPrompt,
                model := req.model, maxTokens := req.maxTokens,
                temperature := req.temperature, messages := messages }],
            closeSendCalls := 0, inbound := inbound }

/-- `LLMClient.ChatStream` (`llm.go` lines 725–749): open a session with the
request's parameters but WITHOUT its messages, validate that the message
list is non-empty and ends with a user message, then send only that last
message's content. Returns the call's result together with the final
transmitted-message log of the (deferred-closed) session. -/
def LLMClient.chatStream (c : LLMClient) (env : SessionEnv) (req : ChatRequest)
    (cb : Option StreamCallback) (inbound : List StreamItem) :
    Except String ChatResponse × List ChatRequestMsg :=
  match c.newChatSession env
      { messages := [], systemPrompt := req.systemPrompt, model := req.model,
        maxTokens := req.maxTokens, temperature := req.temperature } inbound with
  | Except.error e => (Except.error e, [])
  | Except.ok session =>
    match req.messages.getLast? with
    | none =>
        (Except.error "at least one message is required", session.close.sentMsgs)
    | some lastMsg =>
        if lastMsg.role ≠ "user" then
          (Except.error "last message must be from user", session.close.sentMsgs)
        else
          let out := session.send lastMsg.content cb
          (out.result, out.session.close.sentMsgs)

/-- A socket error message written by the relay's `sendError`
(`WSErrorResponse` with code, message and retryable flag). The inbound
handlers of the relay write nothing but these to the socket; the forwarding
goroutine's writes are outside the scope of the settled claims. -/
structure WSErrorMsg where
  code : String
  message : String
  retryable : Bool
  deriving DecidableEq, Repr

/-- `WSStartRequest`: payload of an inbound `start` frame. -/
structure WSStartRequest where
  systemPrompt : String
  model : String
  maxTokens : Int
  temperature : Rat
  messages : List ChatMessage
  deriving DecidableEq, Repr

/-- `WSUserMessage`: payload of an inbound `message` frame. -/
structure WSUserMessage where
  content : String
  deriving DecidableEq, Repr

/-- `levee.wsSession`: one WebSocket relay session. `hasStream` is whether
`s.stream` is non-nil; `streamSent` logs every message transmitted on the
backend stream (the session's backend calls); `socketOut` logs every error
message the inbound handlers wrote to the socket. -/
structure WSSession where
  apiKey : String
  started : Bool
  hasStream : Bool
  streamSent : List ChatRequestMsg
  socketOut : List WSErrorMsg
  deriving DecidableEq, Repr

/-- `wsSession.sendError`: write one error message to the socket. -/
def WSSession.sendError (s : WSSession) (code message : String) (retryable : Bool) :
    WSSession :=
  { s with socketOut := s.socketOut ++ [{ code := code, message := message,
                                          retryable := retryable }] }

/-- External collaborators of `wsSession.handleStart`: the outcome of
`llm.connect()` and of `llm.client.Chat(ctx)`. -/
structure WSEnv where
  connectResult : Except String Unit
  openStream : Except String Unit
  deriving Repr

/-- `wsSession.handleStart` (`ws.go`): reject when already started; parse the
payload (`none` models a `json.Unmarshal` failure); connect; open the
backend stream; send the start envelope; mark started. The spawned
forwarding goroutine reads the backend stream and is not modelled here. -/
def WSSession.handleStart (s : WSSession) (env : WSEnv)
    (data : Option WSStartRequest) : WSSession :=
  if s.started then
    s.sendError "already_started" "Session already started" false
  else
    match data with
    | none => s.sendError "invalid_data" "Invalid start request" false
    | some req =>
      match env.connectResult with
      | Except.error e => s.sendError "connection_failed" e true
      | Except.ok _ =>
        match env.openStream with
        | Except.error e => s.sendError "stream_failed" e true
        | Except.ok _ =>
            let s1 : WSSession := { s with hasStream := true }
            let messages := req.messages.map
              (fun m => ({ role := m.role, content := m.content } : WireMessage))
            let s2 : WSSession :=
              { s1 with streamSent := s1.streamSent ++ [ChatRequestMsg.start
                  { apiKey := s.apiKey, systemPrompt := req.systemPrompt,
                    model := req.model, maxTokens := req.maxTokens,
                    temperature := req.temperature, messages := messages }] }
            { s2 with started := true }

/-- `wsSession.handleMessage` (`ws.go` lines 314–336): reject with
`not_started` unless started and a stream exists; parse the payload; forward
the user turn to the backend stream. -/
def WSSession.handleMessage (s : WSSession) (data : Option WSUserMessage) :
    WSSession :=
  if !s.started || !s.hasStream then
    s.sendError "not_started" "Session not started" false
  else
    match data with
    | none => s.sendError "invalid_data" "Invalid message" false
    | some m =>
        { s with streamSent := s.streamSent ++
            [ChatRequestMsg.message { content := m.content }] }

/-! ## Helper notions and loop lemmas -/

/-- Items the receive loop passes through without terminating: the session
acknowledgement, ignored tool calls, and chunks on which the supplied
callback (if any) succeeds. -/
def itemOk (cb : Option StreamCallback) : StreamItem → Prop
  | StreamItem.event (ChatResponseEvent.sessionStarted _) => True
  | StreamItem.event (ChatResponseEvent.toolCall _) => True
  | StreamItem.event (ChatResponseEvent.chunk c) =>
      match cb with
      | none => True
      | some f => f { content := c.content, index := c.index } = Except.ok ()
  | StreamItem.event (ChatResponseEvent.completion _) => False
  | StreamItem.event (ChatResponseEvent.error _) => False
  | StreamItem.event (ChatResponseEvent.aborted _) => False
  | StreamItem.recvErr _ => False

/-- The chunk contents of an inbound item list, in arrival order. -/
def chunkContents : List StreamItem → List String
  | [] => []
  | StreamItem.event (ChatResponseEvent.chunk c) :: rest => c.content :: chunkContents rest
  | _ :: rest => chunkContents rest

/-- The chunks a callback of shape `cb` would be handed while passing over an
item list (none when no callback was supplied). -/
def deliveredChunks (cb : Option StreamCallback) : List StreamItem → List StreamChunk
  | [] => []
  | StreamItem.event (ChatResponseEvent.chunk c) :: rest =>
      (match cb with
       | none => deliveredChunks cb rest
       | some _ => { content := c.content, index := c.index } :: deliveredChunks cb rest)
  | _ :: rest => deliveredChunks cb rest

/-- Left-fold concatenation starting from `acc`, the shape in which the
receive loop accumulates content; `concatFrom "" = String.join`. -/
def concatFrom (acc : String) (l : List String) : String :=
  l.foldl (fun r s => r ++ s) acc

lemma join_eq_concatFrom (l : List String) : String.join l = concatFrom "" l := rfl

lemma sendLoop_eof (cb : Option StreamCallback) (acc : String)
    (completion : Option CompletionResponse) (calls : List StreamChunk) :
    sendLoop cb [] acc completion calls = (sendFinish acc completion, calls, []) := rfl

lemma sendLoop_sessionStarted (cb : Option StreamCallback) (s0 : SessionStartedResponse)
    (rest : List StreamItem) (acc : String) (calls : List StreamChunk) :
    sendLoop cb (StreamItem.event (ChatResponseEvent.sessionStarted s0) :: rest) acc none calls =
      sendLoop cb rest acc none calls := rfl

lemma sendLoop_toolCall (cb : Option StreamCallback) (t : ToolCallResponse)
    (rest : List StreamItem) (acc : String) (calls : List StreamChunk) :
    sendLoop cb (StreamItem.event (ChatResponseEvent.toolCall t) :: rest) acc none calls =
      sendLoop cb rest acc none calls := rfl

lemma sendLoop_chunk_noCb (c : ChunkResponse)
    (rest : List StreamItem) (acc : String) (calls : List StreamChunk) :
    sendLoop none (StreamItem.event (ChatResponseEvent.chunk c) :: rest) acc none calls =
      sendLoop none rest (acc ++ c.content) none calls := rfl

lemma sendLoop_chunk_ok (f : StreamCallback) (c : ChunkResponse)
    (rest : List StreamItem) (acc : String) (calls : List StreamChunk)
    (h : f { content := c.content, index := c.index } = Except.ok ()) :
    sendLoop (some f) (StreamItem.event (ChatResponseEvent.chunk c) :: rest) acc none calls =
      sendLoop (some f) rest (acc ++ c.content) none
        (calls ++ [{ content := c.content, index := c.index }]) := by
  simp [sendLoop, h]

lemma sendLoop_chunk_fail (f : StreamCallback) (c : ChunkResponse)
    (rest : List StreamItem) (acc : String) (calls : List StreamChunk) (emsg : String)
    (h : f { content := c.content, index := c.index } = Except.error emsg) :
    sendLoop (some f) (StreamItem.event (ChatResponseEvent.chunk c) :: rest) acc none calls =
      (Except.error emsg, calls ++ [{ content := c.content, index := c.index }], rest) := by
  simp [sendLoop, h]

lemma sendLoop_completion (cb : Option StreamCallback) (c : CompletionResponse)
    (rest : List StreamItem) (acc : String) (calls : List StreamChunk) :
    sendLoop cb (StreamItem.event (ChatResponseEvent.completion c) :: rest) acc none calls =
      (sendFinish acc (some c), calls, rest) := rfl

lemma sendLoop_error (cb : Option StreamCallback) (e : ErrorResponse)
    (rest : List StreamItem) (acc : String) (calls : List StreamChunk) :
    sendLoop cb (StreamItem.event (ChatResponseEvent.error e) :: rest) acc none calls =
      (Except.error ("LLM error: " ++ e.message), calls, rest) := rfl

lemma sendLoop_aborted (cb : Option StreamCallback) (a : AbortedResponse)
    (rest : List StreamItem) (acc : String) (calls : List StreamChunk) :
    sendLoop cb (StreamItem.event (ChatResponseEvent.aborted a) :: rest) acc none calls =
      (Except.error ("generation aborted: " ++ a.reason), calls, rest) := rfl

/-- Passing the receive loop over a prefix of non-terminating items
accumulates their chunk contents and callback deliveries and continues with
the remainder. -/
lemma sendLoop_ok_prefix (cb : Option StreamCallback) (pre rest : List StreamItem)
    (acc : String) (calls : List StreamChunk)
    (h : ∀ i ∈ pre, itemOk cb i) :
    sendLoop cb (pre ++ rest) acc none calls =
      sendLoop cb rest (concatFrom acc (chunkContents pre))
        none (calls ++ deliveredChunks cb pre) := by
  induction pre generalizing acc calls with
  | nil => simp [chunkContents, deliveredChunks, concatFrom]
  | cons head tail ih =>
    have hh := h head (List.mem_cons_self _ _)
    have ht : ∀ i ∈ tail, itemOk cb i := fun i hi => h i (List.mem_cons_of_mem _ hi)
    cases head with
    | recvErr m => exact absurd hh (by simp [itemOk])
    | event e =>
      cases e with
      | sessionStarted s0 =>
          rw [List.cons_append, sendLoop_sessionStarted, ih _ _ ht,
            show chunkContents (StreamItem.event (ChatResponseEvent.sessionStarted s0) :: tail)
              = chunkContents tail from rfl,
            show deliveredChunks cb (StreamItem.event (ChatResponseEvent.sessionStarted s0) :: tail)
              = deliveredChunks cb tail from rfl]
      | toolCall t =>
          rw [List.cons_append, sendLoop_toolCall, ih _ _ ht,
            show chunkContents (StreamItem.event (ChatResponseEvent.toolCall t) :: tail)
              = chunkContents tail from rfl,
            show deliveredChunks cb (StreamItem.event (ChatResponseEvent.toolCall t) :: tail)
              = deliveredChunks cb tail from rfl]
      | chunk c =>
          cases cb with
          | none =>
              rw [List.cons_append, sendLoop_chunk_noCb, ih _ _ ht]
              rfl
          | some f =>
              have hf : f { content := c.content, index := c.index } = Except.ok () := hh
              rw [List.cons_append, sendLoop_chunk_ok f c _ _ _ hf, ih _ _ ht]
              simp [chunkContents, deliveredChunks, concatFrom]
      | completion c => exact absurd hh (by simp [itemOk])
      | error e0 => exact absurd hh (by simp [itemOk])
      | aborted a0 => exact absurd hh (by simp [itemOk])

/-! ## Concrete fixtures -/

/-- A freshly opened session (no prior traffic) whose stream will yield the
given inbound items before end-of-stream. -/
def mkSession (inbound : List StreamItem) : ChatSession :=
  { apiKey := "key", done := false, sentMsgs := [], closeSendCalls := 0,
    inbound := inbound }

/-- A callback that always succeeds. -/
def okCallback : StreamCallback := fun _ => Except.ok ()

/-- A session whose stream yields one backend error event (with the given
code) and then end-of-stream. -/
def errEventSession (code : String) : ChatSession :=
  mkSession [StreamItem.event (ChatResponseEvent.error
    { code := code, message := "rate limited", retryable := false })]

/-! ## Claims -/

/-- A concrete completion used by the C1 evaluation. -/
def c1Completion : CompletionResponse :=
  { fullContent := "final text", stopReason := "end_turn", inputTokens := 3,
    outputTokens := 4, costUsd := 0, latencyMs := 5 }

/-- A session whose stream yields a chunk, a completion, and then a trailing
chunk before end-of-stream. -/
def c1Session : ChatSession :=
  mkSession
    [StreamItem.event (ChatResponseEvent.chunk { content := "A", index := 0 }),
     StreamItem.event (ChatResponseEvent.completion c1Completion),
     StreamItem.event (ChatResponseEvent.chunk { content := "B", index := 1 })]

/-- Claim C1, evaluated on the input that decides it: for the event sequence
[chunk "A", completion, chunk "B", end-of-stream], `Send` delivers only the
first chunk to the callback, leaves the trailing chunk unconsumed on the
stream, and returns the completion's fields — i.e. the receive loop
terminates in the very iteration that records the completion instead of
draining the stream to end-of-stream as the claim (and the source's own
`Don't break - there might be more responses` comment) states. -/
theorem C1_completion_breaks_loop :
    (c1Session.send "hi" (some okCallback)).callbackCalls =
      [{ content := "A", index := 0 }] ∧
    (c1Session.send "hi" (some okCallback)).session.inbound =
      [StreamItem.event (ChatResponseEvent.chunk { content := "B", index := 1 })] ∧
    (c1Session.send "hi" (some okCallback)).result = Except.ok
      { content := "final text", model := "", inputTokens := 3, outputTokens := 4,
        costUSD := 0, latencyMs := 5, stopReason := "end_turn" } :=
  ⟨rfl, rfl, rfl⟩

/-- Counterexample to claim C2 as stated: `Send`'s result is identical for
backend error events that differ only in their code, so the returned error
cannot carry the event's code; it carries only the message. -/
theorem C2_code_not_in_error :
    ((errEventSession "overloaded").send "hi" none).result =
      ((errEventSession "wrong_key").send "hi" none).result ∧
    ((errEventSession "overloaded").send "hi" none).result =
      Except.error "LLM error: rate limited" :=
  ⟨rfl, rfl⟩

/-- Claim C2 as amended: whenever the backend emits an error event — after
any prefix of events the loop passes through (chunks whose callback
succeeds, acknowledgements, tool calls) — `Send` terminates and returns an
error carrying that event's message (the event's code is not included). -/
theorem C2_error_event_yields_message_error
    (s : ChatSession) (content : String) (cb : Option StreamCallback)
    (pre rest : List StreamItem) (e : ErrorResponse)
    (hdone : s.done = false)
    (hin : s.inbound = pre ++ StreamItem.event (ChatResponseEvent.error e) :: rest)
    (hpre : ∀ i ∈ pre, itemOk cb i) :
    (s.send content cb).result = Except.error ("LLM error: " ++ e.message) := by
  have key := sendLoop_ok_prefix cb pre
    (StreamItem.event (ChatResponseEvent.error e) :: rest) "" [] hpre
  rw [sendLoop_error] at key
  simp [ChatSession.send, hdone, hin, key]

/-- Witness for C2: a chunk precedes the error event; `Send` fails with the
event's message. -/
theorem C2_witness :
    ((mkSession
        [StreamItem.event (ChatResponseEvent.chunk { content := "Hi", index := 0 }),
         StreamItem.event (ChatResponseEvent.error
           { code := "overloaded", message := "rate limited", retryable := false })]).send
        "go" (some okCallback)).result = Except.error "LLM error: rate limited" :=
  C2_error_event_yields_message_error _ "go" (some okCallback)
    [StreamItem.event (ChatResponseEvent.chunk { content := "Hi", index := 0 })]
    [] { code := "overloaded", message := "rate limited", retryable := false }
    rfl rfl (by intro i hi; simp only [List.mem_singleton] at hi; subst hi; exact rfl)

/-- Counterexample to claim C3 as stated: on a closed session, `Abort` does
not fail fast — it succeeds and transmits an abort message on the stream. -/
theorem C3_abort_after_close_transmits :
    ((mkSession []).close.abortTurn "stop").1 = Except.ok () ∧
    ((mkSession []).close.abortTurn "stop").2.sentMsgs =
      [ChatRequestMsg.abort { reason := "stop" }] :=
  ⟨rfl, rfl⟩

/-- Claim C3 as amended: after `Close`, every `Send` fails fast with the
session-closed error, changes nothing and transmits nothing; a second
`Close` is safe (the session stays closed, with no message transmitted,
though `CloseSend` is invoked on the stream again); but `Abort` performs no
closed-check: it succeeds and still transmits an abort message. -/
theorem C3_close_semantics
    (s : ChatSession) (content reason : String) (cb : Option StreamCallback) :
    (s.close.send content cb).result = Except.error "session is closed" ∧
    (s.close.send content cb).session = s.close ∧
    (s.close.send content cb).callbackCalls = [] ∧
    s.close.close.done = true ∧
    s.close.close.sentMsgs = s.sentMsgs ∧
    s.close.close.inbound = s.inbound ∧
    (s.close.abortTurn reason).1 = Except.ok () ∧
    (s.close.abortTurn reason).2.sentMsgs =
      s.sentMsgs ++ [ChatRequestMsg.abort { reason := reason }] := by
  refine ⟨?_, ?_, ?_, ?_, ?_, ?_, ?_, ?_⟩ <;>
    simp [ChatSession.send, ChatSession.close, ChatSession.abortTurn]

/-- Claim C4: for the backend event sequence
[chunk(index 0), chunk(index 1), completion, end-of-stream], `Send` invokes
the callback exactly twice, in index order with the respective chunk
contents, and returns the completion's full content (not the accumulated
chunks) with token/cost/latency fields copied verbatim. -/
theorem C4_two_chunks_completion
    (s : ChatSession) (content c0 c1 : String) (f : StreamCallback)
    (comp : CompletionResponse)
    (hdone : s.done = false)
    (hin : s.inbound =
      [StreamItem.event (ChatResponseEvent.chunk { content := c0, index := 0 }),
       StreamItem.event (ChatResponseEvent.chunk { content := c1, index := 1 }),
       StreamItem.event (ChatResponseEvent.completion comp)])
    (h0 : f { content := c0, index := 0 } = Except.ok ())
    (h1 : f { content := c1, index := 1 } = Except.ok ()) :
    (s.send content (some f)).callbackCalls =
      [{ content := c0, index := 0 }, { content := c1, index := 1 }] ∧
    (s.send content (some f)).result = Except.ok
      { content := comp.fullContent, model := "", inputTokens := comp.inputTokens,
        outputTokens := comp.outputTokens, costUSD := comp.costUsd,
        latencyMs := comp.latencyMs, stopReason := comp.stopReason } := by
  have key : sendLoop (some f) s.inbound "" none [] =
      (Except.ok
        { content := comp.fullContent, model := "", inputTokens := comp.inputTokens,
          outputTokens := comp.outputTokens, costUSD := comp.costUsd,
          latencyMs := comp.latencyMs, stopReason := comp.stopReason },
       [{ content := c0, index := 0 }, { content := c1, index := 1 }], []) := by
    rw [hin, sendLoop_chunk_ok f _ _ _ _ h0, sendLoop_chunk_ok f _ _ _ _ h1,
      sendLoop_completion]
    simp [sendFinish]
  exact ⟨by simp [ChatSession.send, hdone, key],
         by simp [ChatSession.send, hdone, key]⟩

/-- A concrete completion used by the C4 witness. -/
def w4Completion : CompletionResponse :=
  { fullContent := "Hello world", stopReason := "end_turn", inputTokens := 7,
    outputTokens := 9, costUsd := 1/100, latencyMs := 250 }

/-- Witness for C4 at a concrete event sequence. -/
theorem C4_witness :
    ((mkSession
        [StreamItem.event (ChatResponseEvent.chunk { content := "Hel", index := 0 }),
         StreamItem.event (ChatResponseEvent.chunk { content := "lo", index := 1 }),
         StreamItem.event (ChatResponseEvent.completion w4Completion)]).send
        "hi" (some okCallback)).callbackCalls =
      [{ content := "Hel", index := 0 }, { content := "lo", index := 1 }] ∧
    ((mkSession
        [StreamItem.event (ChatResponseEvent.chunk { content := "Hel", index := 0 }),
         StreamItem.event (ChatResponseEvent.chunk { content := "lo", index := 1 }),
         StreamItem.event (ChatResponseEvent.completion w4Completion)]).send
        "hi" (some okCallback)).result = Except.ok
      { content := "Hello world", model := "", inputTokens := 7, outputTokens := 9,
        costUSD := 1/100, latencyMs := 250, stopReason := "end_turn" } :=
  C4_two_chunks_completion _ "hi" "Hel" "lo" okCallback w4Completion rfl rfl rfl rfl

/-- Counterexample to claim C5 as stated: the event sequence
[error, end-of-stream] ends with end-of-stream and contains no completion
event, yet `Send` returns an error rather than success. -/
theorem C5_error_event_refutes :
    ((errEventSession "overloaded").send "hi" (some okCallback)).result =
      Except.error "LLM error: rate limited" :=
  rfl

/-- Claim C5 as amended: for every backend event sequence that ends with
end-of-stream and contains no completion event — and also no error event, no
abort event, no transport receive error, and no chunk on which the supplied
callback fails — `Send` returns success with content equal to the
concatenation of the chunk contents in arrival order and zero-valued
token/cost/latency/stop-reason fields. -/
theorem C5_eos_without_completion
    (s : ChatSession) (content : String) (cb : Option StreamCallback)
    (hdone : s.done = false)
    (hok : ∀ i ∈ s.inbound, itemOk cb i) :
    (s.send content cb).result = Except.ok
      { content := String.join (chunkContents s.inbound), model := "",
        inputTokens := 0, outputTokens := 0, costUSD := 0, latencyMs := 0,
        stopReason := "" } ∧
    (s.send content cb).callbackCalls = deliveredChunks cb s.inbound := by
  have key := sendLoop_ok_prefix cb s.inbound [] "" [] hok
  rw [List.append_nil, sendLoop_eof] at key
  refine ⟨?_, ?_⟩ <;>
    simp [ChatSession.send, hdone, key, sendFinish, join_eq_concatFrom]

/-- Witness for C5: acknowledgement plus two chunks, no completion. -/
theorem C5_witness :
    ((mkSession
        [StreamItem.event (ChatResponseEvent.sessionStarted
          { sessionId := "s1", provider := "anthropic", model := "sonnet" }),
         StreamItem.event (ChatResponseEvent.chunk { content := "He", index := 0 }),
         StreamItem.event (ChatResponseEvent.chunk { content := "y", index := 1 })]).send
        "hi" (some okCallback)).result = Except.ok
      { content := "Hey", model := "", inputTokens := 0, outputTokens := 0,
        costUSD := 0, latencyMs := 0, stopReason := "" } ∧
    ((mkSession
        [StreamItem.event (ChatResponseEvent.sessionStarted
          { sessionId := "s1", provider := "anthropic", model := "sonnet" }),
         StreamItem.event (ChatResponseEvent.chunk { content := "He", index := 0 }),
         StreamItem.event (ChatResponseEvent.chunk { content := "y", index := 1 })]).send
        "hi" (some okCallback)).callbackCalls =
      [{ content := "He", index := 0 }, { content := "y", index := 1 }] :=
  C5_eos_without_completion _ "hi" (some okCallback) rfl
    (by simp only [mkSession, List.forall_mem_cons, List.forall_mem_nil, and_true]
        exact ⟨trivial, rfl, rfl, by simp⟩)

/-- Claim C6: if the chunk callback fails on some chunk (after a prefix of
events the loop passes through), `Send` stops the receive loop at that
point, returns the callback's failure verbatim, delivers no further chunk,
and leaves the remaining events unconsumed. -/
theorem C6_callback_failure_propagates
    (s : ChatSession) (content : String) (f : StreamCallback)
    (pre rest : List StreamItem) (c : ChunkResponse) (emsg : String)
    (hdone : s.done = false)
    (hin : s.inbound = pre ++ StreamItem.event (ChatResponseEvent.chunk c) :: rest)
    (hpre : ∀ i ∈ pre, itemOk (some f) i)
    (hfail : f { content := c.content, index := c.index } = Except.error emsg) :
    (s.send content (some f)).result = Except.error emsg ∧
    (s.send content (some f)).callbackCalls =
      deliveredChunks (some f) pre ++ [{ content := c.content, index := c.index }] ∧
    (s.send content (some f)).session.inbound = rest := by
  have key := sendLoop_ok_prefix (some f) pre
    (StreamItem.event (ChatResponseEvent.chunk c) :: rest) "" [] hpre
  rw [sendLoop_chunk_fail f c rest _ _ emsg hfail] at key
  refine ⟨?_, ?_, ?_⟩ <;> simp [ChatSession.send, hdone, hin, key]

/-- A callback that rejects the chunk with index 1. -/
def failAtOne : StreamCallback :=
  fun ch => if ch.index = 1 then Except.error "stop streaming" else Except.ok ()

/-- Witness for C6: the callback fails on the second chunk; the first is
delivered, the failure is the call's result, the rest stays unconsumed. -/
theorem C6_witness :
    ((mkSession
        [StreamItem.event (ChatResponseEvent.chunk { content := "a", index := 0 }),
         StreamItem.event (ChatResponseEvent.chunk { content := "b", index := 1 }),
         StreamItem.event (ChatResponseEvent.chunk { content := "c", index := 2 })]).send
        "hi" (some failAtOne)).result = Except.error "stop streaming" ∧
    ((mkSession
        [StreamItem.event (ChatResponseEvent.chunk { content := "a", index := 0 }),
         StreamItem.event (ChatResponseEvent.chunk { content := "b", index := 1 }),
         StreamItem.event (ChatResponseEvent.chunk { content := "c", index := 2 })]).send
        "hi" (some failAtOne)).callbackCalls =
      deliveredChunks (some failAtOne)
          [StreamItem.event (ChatResponseEvent.chunk { content := "a", index := 0 })] ++
        [{ content := "b", index := 1 }] ∧
    ((mkSession
        [StreamItem.event (ChatResponseEvent.chunk { content := "a", index := 0 }),
         StreamItem.event (ChatResponseEvent.chunk { content := "b", index := 1 }),
         StreamItem.event (ChatResponseEvent.chunk { content := "c", index := 2 })]).send
        "hi" (some failAtOne)).session.inbound =
      [StreamItem.event (ChatResponseEvent.chunk { content := "c", index := 2 })] :=
  C6_callback_failure_propagates _ "hi" failAtOne
    [StreamItem.event (ChatResponseEvent.chunk { content := "a", index := 0 })]
    [StreamItem.event (ChatResponseEvent.chunk { content := "c", index := 2 })]
    { content := "b", index := 1 } "stop streaming"
    rfl rfl
    (by intro i hi; simp only [List.mem_singleton] at hi; subst hi; exact rfl)
    rfl

/-- Claim C7: an inbound `message` frame while `started` is false yields
exactly one `not_started` error socket message and leaves everything else —
in particular the backend-call log — untouched. -/
theorem C7_message_before_start
    (s : WSSession) (data : Option WSUserMessage)
    (h : s.started = false) :
    s.handleMessage data =
      { s with socketOut := s.socketOut ++
          [{ code := "not_started", message := "Session not started",
             retryable := false }] } := by
  simp [WSSession.handleMessage, h, WSSession.sendError]

/-- A fresh relay session that has processed no `start` frame. -/
def w7Session : WSSession :=
  { apiKey := "k", started := false, hasStream := false, streamSent := [],
    socketOut := [] }

/-- Witness for C7 on a fresh relay session. -/
theorem C7_witness :
    w7Session.handleMessage (some { content := "hello" }) =
      { apiKey := "k", started := false, hasStream := false, streamSent := [],
        socketOut := [{ code := "not_started", message := "Session not started",
                        retryable := false }] } :=
  C7_message_before_start w7Session (some { content := "hello" }) rfl

/-- Claim C8: a `start` frame on an already-started relay session yields one
non-retryable `already_started` error socket message, leaves the session
state (started flag, stream handle, backend-call log) unchanged, and the
session remains usable: a subsequent `message` frame is still forwarded to
the backend stream. -/
theorem C8_second_start_rejected
    (s : WSSession) (env : WSEnv) (data : Option WSStartRequest) (m : WSUserMessage)
    (hstarted : s.started = true) (hstream : s.hasStream = true) :
    s.handleStart env data =
      { s with socketOut := s.socketOut ++
          [{ code := "already_started", message := "Session already started",
             retryable := false }] } ∧
    (s.handleStart env data).started = true ∧
    (s.handleStart env data).hasStream = true ∧
    (s.handleStart env data).streamSent = s.streamSent ∧
    ((s.handleStart env data).handleMessage (some m)).streamSent =
      s.streamSent ++ [ChatRequestMsg.message { content := m.content }] := by
  refine ⟨?_, ?_, ?_, ?_, ?_⟩ <;>
    simp [WSSession.handleStart, hstarted, hstream, WSSession.sendError,
      WSSession.handleMessage]

/-- A relay session on which a first `start` has succeeded. -/
def w8Session : WSSession :=
  { apiKey := "k", started := true, hasStream := true,
    streamSent := [ChatRequestMsg.start
      { apiKey := "k", systemPrompt := "", model := "sonnet", maxTokens := 100,
        temperature := 0, messages := [] }],
    socketOut := [] }

/-- The start payload re-sent by the C8 witness's second `start` frame. -/
def w8StartReq : WSStartRequest :=
  { systemPrompt := "", model := "opus", maxTokens := 50, temperature := 0,
    messages := [] }

/-- Witness for C8 on a started relay session. -/
theorem C8_witness :
    w8Session.handleStart { connectResult := Except.ok (), openStream := Except.ok () }
        (some w8StartReq) =
      { w8Session with socketOut := w8Session.socketOut ++
          [{ code := "already_started", message := "Session already started",
             retryable := false }] } ∧
    (w8Session.handleStart { connectResult := Except.ok (), openStream := Except.ok () }
        (some w8StartReq)).started = true ∧
    (w8Session.handleStart { connectResult := Except.ok (), openStream := Except.ok () }
        (some w8StartReq)).hasStream = true ∧
    (w8Session.handleStart { connectResult := Except.ok (), openStream := Except.ok () }
        (some w8StartReq)).streamSent = w8Session.streamSent ∧
    ((w8Session.handleStart { connectResult := Except.ok (), openStream := Except.ok () }
        (some w8StartReq)).handleMessage (some { content := "next turn" })).streamSent =
      w8Session.streamSent ++ [ChatRequestMsg.message { content := "next turn" }] :=
  C8_second_start_rejected w8Session
    { connectResult := Except.ok (), openStream := Except.ok () }
    (some w8StartReq) { content := "next turn" } rfl rfl

/-- A `connect` call on a client with a cached connection is a no-op that
succeeds: no lookup, no new connection, state unchanged. -/
lemma connect_cached (c : LLMClient) (env : ConnectEnv) (n : Nat)
    (h : c.conn = some n) :
    c.connect env =
      { result := Except.ok (), client := c, lookupsPerformed := 0,
        connsCreated := 0 } := by
  simp [LLMClient.connect, h]

/-- A successful `connect` leaves a cached connection behind. -/
lemma connect_ok_isSome (c : LLMClient) (env : ConnectEnv)
    (h : (c.connect env).result = Except.ok ()) :
    ∃ n, (c.connect env).client.conn = some n := by
  cases hc : c.conn with
  | some n => exact ⟨n, by simp [LLMClient.connect, hc]⟩
  | none =>
    cases hr : c.resolveAddr env with
    | error e => simp [LLMClient.connect, hc, hr] at h
    | ok p =>
      obtain ⟨addr, c1⟩ := p
      cases hn : env.newConn with
      | error e => simp [LLMClient.connect, hc, hr, hn] at h
      | ok handle => exact ⟨handle, by simp [LLMClient.connect, hc, hr, hn]⟩

/-- A whole sequence of `connect` calls on a client with a cached connection
changes nothing and creates no connection. -/
lemma connectMany_cached (envs : List ConnectEnv) (c : LLMClient) (n : Nat)
    (h : c.conn = some n) :
    connectMany c envs = (c, 0) := by
  suffices key : ∀ k, envs.foldl connectStep (c, k) = (c, k) from key 0
  intro k
  induction envs generalizing k with
  | nil => rfl
  | cons env rest ih =>
      rw [List.foldl_cons,
        show connectStep (c, k) env = (c, k) by
          simp [connectStep, connect_cached c env n h]]
      exact ih k

/-- Claim C9: `connect` is idempotent — once a call has succeeded, every
later call succeeds without performing a side-channel lookup and without
creating a connection, and leaves the client (cached handle and resolved
address included) unchanged; hence any sequence of further `connect` calls
creates zero additional connections. -/
theorem C9_connect_idempotent
    (c : LLMClient) (env env2 : ConnectEnv) (envs : List ConnectEnv)
    (h : (c.connect env).result = Except.ok ()) :
    ((c.connect env).client.connect env2 =
      { result := Except.ok (), client := (c.connect env).client,
        lookupsPerformed := 0, connsCreated := 0 }) ∧
    connectMany (c.connect env).client envs = ((c.connect env).client, 0) := by
  obtain ⟨n, hn⟩ := connect_ok_isSome c env h
  exact ⟨connect_cached _ env2 n hn, connectMany_cached envs _ n hn⟩

/-- A client configured for auto-discovery with no connection yet. -/
def w9Client : LLMClient :=
  { apiKey := "k", baseURL := "https://levee.example.com", grpcAddr := "",
    useTLS := true, conn := none }

/-- An environment in which discovery and connection both succeed. -/
def w9Env : ConnectEnv :=
  { fetchConfig := Except.ok
      { available := true, grpcPort := 9889, defaultProvider := "anthropic",
        configuredProviders := ["anthropic"] },
    hostname := Except.ok "levee.example.com", newConn := Except.ok 1 }

/-- An environment whose collaborators would all fail — later `connect`
calls must succeed without ever consulting them. -/
def w9EnvDead : ConnectEnv :=
  { fetchConfig := Except.error "must not be consulted",
    hostname := Except.error "must not be consulted",
    newConn := Except.error "must not be consulted" }

/-- Witness for C9: after one successful auto-discovering `connect`, later
calls (with collaborators that would fail) are no-ops that succeed. -/
theorem C9_witness :
    ((w9Client.connect w9Env).client.connect w9EnvDead =
      { result := Except.ok (), client := (w9Client.connect w9Env).client,
        lookupsPerformed := 0, connsCreated := 0 }) ∧
    connectMany (w9Client.connect w9Env).client [w9EnvDead, w9EnvDead] =
      ((w9Client.connect w9Env).client, 0) :=
  C9_connect_idempotent w9Client w9Env w9EnvDead [w9EnvDead, w9EnvDead] rfl

/-- Claim C10: `ChatStream` errors when the message list is empty or its
last message is not a user message; when it proceeds, the transmitted
traffic is exactly a start envelope carrying NO seed messages followed by
one user turn carrying only the last message's content — every earlier
message of the request is silently discarded. -/
theorem C10_chatStream_messages
    (c : LLMClient) (env : SessionEnv) (req : ChatRequest)
    (cb : Option StreamCallback) (inbound : List StreamItem)
    (hconn : (c.connect env.connectEnv).result = Except.ok ())
    (hopen : env.openStream = Except.ok ()) :
    (req.messages = [] →
      (c.chatStream env req cb inbound).1 =
        Except.error "at least one message is required") ∧
    (∀ lastMsg, req.messages.getLast? = some lastMsg → lastMsg.role ≠ "user" →
      (c.chatStream env req cb inbound).1 =
        Except.error "last message must be from user") ∧
    (∀ lastMsg, req.messages.getLast? = some lastMsg → lastMsg.role = "user" →
      (c.chatStream env req cb inbound).2 =
        [ChatRequestMsg.start
          { apiKey := c.apiKey, systemPrompt := req.systemPrompt,
            model := req.model, maxTokens := req.maxTokens,
            temperature := req.temperature, messages := [] },
         ChatRequestMsg.message { content := lastMsg.content }]) := by
  have hsess : c.newChatSession env
      { messages := [], systemPrompt := req.systemPrompt, model := req.model,
        maxTokens := req.maxTokens, temperature := req.temperature } inbound =
      Except.ok
        { apiKey := c.apiKey, done := false,
          sentMsgs := [ChatRequestMsg.start
            { apiKey := c.apiKey, systemPrompt := req.systemPrompt,
              model := req.model, maxTokens := req.maxTokens,
              temperature := req.temperature, messages := [] }],
          closeSendCalls := 0, inbound := inbound } := by
    simp [LLMClient.newChatSession, hconn, hopen]
  refine ⟨?_, ?_, ?_⟩
  · intro hempty
    simp [LLMClient.chatStream, hsess, hempty]
  · intro lastMsg hlast hrole
    simp [LLMClient.chatStream, hsess, hlast, hrole]
  · intro lastMsg hlast hrole
    simp [LLMClient.chatStream, hsess, hlast, hrole, ChatSession.send,
      ChatSession.close]

/-- A three-message history whose earlier entries C10 shows are dropped. -/
def w10Req : ChatRequest :=
  { messages := [{ role := "system", content := "be nice" },
                 { role := "assistant", content := "prior answer" },
                 { role := "user", content := "Hi" }],
    systemPrompt := "sys", model := "sonnet", maxTokens := 1024,
    temperature := 7/10 }

/-- The environment for the C10 witness. -/
def w10Env : SessionEnv :=
  { connectEnv := w9Env, openStream := Except.ok () }

/-- Witness for C10: with a three-message history, only a seedless start
envelope and the last message's content are transmitted. -/
theorem C10_witness :
    (w9Client.chatStream w10Env w10Req none []).2 =
      [ChatRequestMsg.start
        { apiKey := "k", systemPrompt := "sys", model := "sonnet",
          maxTokens := 1024, temperature := 7/10, messages := [] },
       ChatRequestMsg.message { content := "Hi" }] :=
  (C10_chatStream_messages w9Client w10Env w10Req none [] rfl rfl).2.2
    { role := "user", content := "Hi" } rfl rfl

end Levee
